import Mathlib

/-
Shallow embedding of src/pangit.py (the mockgit repository).

Python byte strings are `List Nat` (one entry per byte), Python `str` is
`String`, and fallible Python code returns `Except PyErr _`, where `PyErr`
names the exception classes the interpreter would raise.  The filesystem is
an explicit `FS` value (a set of directory paths and a path-to-bytes map for
files).  Dynamic typing matters in one place: `repo_path` receives either a
`GitRepository` or (through a bug in `object_read`) the string "objects", so
its first argument is the small union `PyVal`.
-/

deriving instance DecidableEq for Except

namespace Mockgit

/-- Python byte strings, one list entry per byte value. -/
abbrev Bytes := List Nat

/-- The bytes of an ASCII string literal (models a Python bytes literal). -/
def strBytes (s : String) : Bytes := s.data.map Char.toNat

/-- Decode bytes back to text (models bytes.decode for ASCII data). -/
def bytesToStr (b : Bytes) : String := String.mk (b.map Char.ofNat)

/-- The Python exceptions the embedded code can raise.  `divergence` is not an
exception: it marks a spot where the Python source would loop or recurse
forever, so that every Lean definition stays total. -/
inductive PyErr
  | attributeError (msg : String)
  | typeError (msg : String)
  | nameError (msg : String)
  | keyError
  | indexError
  | valueError (msg : String)
  | overflowError
  | assertionError
  | fileNotFoundError
  | exception (msg : String)
  | divergence
  deriving DecidableEq, Repr

/-- Python index arithmetic for slices: a negative index counts from the end,
and results are clamped into [0, len]. -/
def pyIdx (len : Nat) (i : Int) : Nat :=
  if i < 0 then (len + i).toNat else min i.toNat len

/-- Python slice raw[a:b] on bytes. -/
def pySlice (l : Bytes) (a b : Int) : Bytes :=
  (l.take (pyIdx l.length b)).drop (pyIdx l.length a)

/-- Python slice s[a:b] on text. -/
def pyStrSlice (s : String) (a b : Int) : String :=
  String.mk ((s.data.take (pyIdx s.data.length b)).drop (pyIdx s.data.length a))

/-- Python bytes.find(byte, start): the index of the first occurrence at or
after start, or -1 when there is none. -/
def pyFindByte (raw : Bytes) (b : Nat) (start : Int) : Int :=
  let s := pyIdx raw.length start
  match ((raw.drop s).findIdx? (fun x => x = b)) with
  | some i => (s + i : Nat)
  | none => -1

/-- Python raw[i] on bytes: a negative index counts from the end, an index out
of range raises IndexError. -/
def pyGetByte (raw : Bytes) (i : Int) : Except PyErr Nat :=
  let j : Int := if i < 0 then (raw.length : Int) + i else i
  if 0 ≤ j ∧ j.toNat < raw.length then .ok (raw.getD j.toNat 0) else .error .indexError

/-- Python int.from_bytes(l, "big"). -/
def bytesToNatBE (l : Bytes) : Nat := l.foldl (fun acc b => acc * 256 + b) 0

/-- Python hex(n)[2:]: lowercase hex digits with no zero padding (hex(0)[2:]
is "0"). -/
def natToHex (n : Nat) : String := String.mk (Nat.toDigits 16 n)

/-- Python n.to_bytes(k, "big"): big-endian bytes, OverflowError when n needs
more than k bytes. -/
def natToBytesBE : Nat → Nat → Bytes
  | 0, _ => []
  | k + 1, n => natToBytesBE k (n / 256) ++ [n % 256]

/-- Python int(s, 16): the value of a string of hex digits, ValueError
otherwise (signs, blanks and 0x prefixes do not occur in this program). -/
def hexDigitVal (c : Char) : Option Nat :=
  if ('0' ≤ c ∧ c ≤ '9') then some (c.toNat - 48)
  else if ('a' ≤ c ∧ c ≤ 'f') then some (c.toNat - 87)
  else if ('A' ≤ c ∧ c ≤ 'F') then some (c.toNat - 55)
  else none

def pyIntHex (s : String) : Except PyErr Nat :=
  if s.data = [] then .error (.valueError "invalid literal for int with base 16")
  else
    s.data.foldlM
      (fun acc c =>
        match hexDigitVal c with
        | some d => .ok (acc * 16 + d)
        | none => .error (.valueError "invalid literal for int with base 16"))
      0

/-- bytes.replace of the two-byte pattern newline-space by a lone newline,
left to right, non-overlapping (kvlm_parse uses it to unfold continuation
lines). -/
def replaceNlSpWithNl : Bytes → Bytes
  | 10 :: 32 :: rest => 10 :: replaceNlSpWithNl rest
  | x :: rest => x :: replaceNlSpWithNl rest
  | [] => []

/-- bytes.replace of a newline by newline-space (kvlm_serialze uses it to
indent continuation lines). -/
def replaceNlWithNlSp : Bytes → Bytes
  | 10 :: rest => 10 :: 32 :: replaceNlWithNlSp rest
  | x :: rest => x :: replaceNlWithNlSp rest
  | [] => []

/-- The data model of class GitRepository: the worktree path and the .git
directory path (the config handling plays no part in the claims). -/
structure GitRepository where
  worktree : String
  gitdir : String
  deriving DecidableEq, Repr

/-- A Python value that is either a string or a repository: object_read passes
the string "objects" where repo_path expects a repository, so the embedding
must keep both possibilities. -/
inductive PyVal
  | vstr (s : String)
  | vrepo (r : GitRepository)
  deriving Repr

/-- The filesystem: the set of directory paths and the files (path, bytes).
Text-mode reads decode the stored bytes. -/
structure FS where
  dirs : List String
  files : List (String × Bytes)
  deriving DecidableEq, Repr

def FS.isdir (fs : FS) (p : String) : Bool := fs.dirs.contains p

def FS.readFile (fs : FS) (p : String) : Option Bytes :=
  (fs.files.find? (fun e => e.1 == p)).map (fun e => e.2)

def FS.pathExists (fs : FS) (p : String) : Bool :=
  fs.dirs.contains p || fs.files.any (fun e => e.1 == p)

/-- The names directly under directory p (os.listdir). -/
def FS.childNames (fs : FS) (p : String) : List String :=
  (fs.dirs ++ fs.files.map (fun e => e.1)).filterMap (fun q =>
    if q.startsWith (p ++ "/") then
      let rest := (q.toList.drop (p.length + 1))
      if rest.contains '/' ∨ rest = [] then none else some (String.mk rest)
    else none)

/-- os.path.join with "/" as separator. -/
def joinPath (parts : List String) : String := String.intercalate "/" parts

/-- repo_path(repo, *path): os.path.join(repo.gitdir, *path).  When the repo
argument is a plain string (as happens in object_read) the attribute access
repo.gitdir raises AttributeError. -/
def repo_path (repo : PyVal) (path : List String) : Except PyErr String :=
  match repo with
  | .vrepo r => .ok (joinPath (r.gitdir :: path))
  | .vstr _ => .error (.attributeError "str object has no attribute gitdir")

/-- repo_dir(repo, *path, mkdir): returns the joined path when it is an
existing directory, raises when it exists and is not a directory, creates it
when mkdir is set, and otherwise returns None.  The possibly grown filesystem
is threaded through the result. -/
def repo_dir (fs : FS) (repo : PyVal) (path : List String) (mkdir : Bool) :
    Except PyErr (Option String × FS) := do
  let p ← repo_path repo path
  if fs.pathExists p then
    if fs.isdir p then return (some p, fs)
    else .error (.exception ("Not a directory " ++ p))
  else if mkdir then return (some p, { fs with dirs := p :: fs.dirs })
  else return (none, fs)

/-- repo_file(repo, *path, mkdir): makes the parent directory through
repo_dir and returns the joined path when the parent exists, None
otherwise. -/
def repo_file (fs : FS) (repo : PyVal) (path : List String) (mkdir : Bool) :
    Except PyErr (Option String × FS) := do
  let (d, fs) ← repo_dir fs repo path.dropLast mkdir
  match d with
  | some _ => do
    let p ← repo_path repo path
    return (some p, fs)
  | none => return (none, fs)

/-- A parsed tree entry (class GitTreeLeaf): mode bytes, path bytes, and the
entry address as a hex string. -/
structure GitTreeLeaf where
  mode : Bytes
  path : Bytes
  sha : String
  deriving DecidableEq, Repr

/-- A KVLM value: a single byte string, or the list a repeated key
accumulates. -/
inductive KvVal
  | s (v : Bytes)
  | l (vs : List Bytes)
  deriving DecidableEq, Repr

/-- The KVLM structure: a Python OrderedDict from key bytes to value, kept
here as an insertion-ordered association list with distinct keys. -/
abbrev Kvlm := List (Bytes × KvVal)

/-- dict lookup. -/
def dictGet (d : Kvlm) (k : Bytes) : Option KvVal :=
  (d.find? (fun e => e.1 == k)).map (fun e => e.2)

/-- dict store: replaces in place when the key is present, appends
otherwise (OrderedDict keeps first-insertion order). -/
def dictSet (d : Kvlm) (k : Bytes) (v : KvVal) : Kvlm :=
  if d.any (fun e => e.1 == k) then d.map (fun e => if e.1 == k then (k, v) else e)
  else d ++ [(k, v)]

/-- The deserialized payload of a GitObject: GitBlob keeps the raw bytes,
GitCommit and GitTag keep what kvlm_parse returned (which can be Python
None, hence the Option), GitTree keeps the entry list. -/
inductive ObjData
  | blob (blobdata : Bytes)
  | commit (kvlm : Option Kvlm)
  | tree (items : List GitTreeLeaf)
  | tag (kvlm : Option Kvlm)
  deriving DecidableEq, Repr

/-- A constructed GitObject: its fmt tag and its deserialized data. -/
structure GitObject where
  fmt : Bytes
  data : ObjData
  deriving DecidableEq, Repr

/-- object_find(repo, name, fmt, follow): the source returns the name
argument unchanged. -/
def object_find (repo : GitRepository) (name : String) (fmt : Option Bytes)
    (follow : Bool) : String :=
  name

/-- object_write(obj, actually_write).  Its first statement is
data = object.seralize() where object is the Python builtin base class (the
parameter is called obj), so every call raises AttributeError.  The remaining
lines are kept below as unreachable code: the header build, then
sha = hashlib.sha(result).hexdigest() (hashlib has no member sha; sha1 was
meant), then a write to objects/sha[0:2]/sha[2:0] (an empty filename slice),
and no return statement, so even a repaired body would return None rather
than the address. -/
def object_write (obj : GitObject) (actually_write : Bool) : Except PyErr Unit := do
  let data ← (.error (.attributeError "type object object has no attribute seralize") :
    Except PyErr Bytes)
  let result := obj.fmt ++ [32] ++ strBytes (toString data.length) ++ [0] ++ data
  let _sha ← (.error (.attributeError "module hashlib has no attribute sha") :
    Except PyErr String)
  let _ := (result, actually_write)
  return ()

/-- The inner while loop of kvlm_parse: end = raw.find(newline, end + 1),
breaking when the byte after the found newline is not a space (it reads
raw[end + 1], which can raise IndexError at the end of input).  The loop can
cycle forever in Python (raw.find restarts from 0 once end is -1); the state
is just the value of end, which after any iteration lies in the range
-1..len-1, so a run of length + 2 iterations must revisit a state and the
loop then truly diverges, which the fuel exhaustion records as
PyErr.divergence. -/
def kvlm_find_end (raw : Bytes) : Nat → Int → Except PyErr Int
  | 0, _ => .error .divergence
  | fuel + 1, e =>
    let e2 := pyFindByte raw 10 (e + 1)
    match pyGetByte raw (e2 + 1) with
    | .error err => .error err
    | .ok b => if b ≠ 32 then .ok e2 else kvlm_find_end raw fuel e2

/-- kvlm_parse(raw, start, dct).  The first statement is
if not dct: dct = collections.OrderDict(), and the collections module has no
attribute OrderDict (OrderedDict was meant), so every call whose dct is falsy
(None, the only way the source ever calls it, or an empty dict) raises
AttributeError.  In the message branch the parsed dict is returned; in the
key-value branch the source stores the pair but has no return statement and
never recurses, so Python returns None, hence the Option in the result. -/
def kvlm_parse (raw : Bytes) (start : Nat) (dct : Option Kvlm) :
    Except PyErr (Option Kvlm) := do
  let dct ←
    (if dct.getD [] = ([] : Kvlm) then
      .error (.attributeError "module collections has no attribute OrderDict")
    else .ok (dct.getD []) : Except PyErr Kvlm)
  let spc := pyFindByte raw 32 start
  let nl := pyFindByte raw 10 start
  if spc < 0 ∨ nl < spc then
    -- base case: a blank line; the remainder is the message under key b""
    if nl ≠ (start : Int) then .error .assertionError
    else return some (dictSet dct [] (.s (pySlice raw ((start : Int) + 1) raw.length)))
  else
    -- key-value case
    let key := pySlice raw start spc
    let endPos ← kvlm_find_end raw (raw.length + 2) start
    let value := replaceNlSpWithNl (pySlice raw (spc + 1) endPos)
    let _dct :=
      match dictGet dct key with
      | some (.l vs) => dictSet dct key (.l (vs ++ [value]))
      | some (.s v) => dictSet dct key (.l [v, value])
      | none => dictSet dct key (.s value)
    -- the source ends here: no return statement and no recursive call
    return none

/-- kvlm_serialze(kvlm).  For each key other than b"" it emits
key SP value (newlines indented) NL; the line ret += b"\n" + kvlm[b""] that
appends the blank line and the message sits inside the key loop, so the
message is appended once per non-message key (and kvlm[b""] raises KeyError
when the message key is absent).  Iterating the entries of the ordered dict
directly is the same as iterating kvlm.keys() and looking each key up, since
the keys are distinct. -/
def kvlm_serialze (kvlm : Kvlm) : Except PyErr Bytes :=
  kvlm.foldlM
    (fun ret e =>
      if e.1 = ([] : Bytes) then pure ret
      else
        let val := match e.2 with | .l vs => vs | .s v => [v]
        let ret := val.foldl
          (fun r v => r ++ e.1 ++ [32] ++ replaceNlWithNlSp v ++ [10]) ret
        match dictGet kvlm [] with
        | some (.s m) => pure (ret ++ [10] ++ m)
        | some (.l _) => .error (.typeError "cant concat list to bytes")
        | none => .error .keyError)
    []

/-- tree_parse_one(raw, start): one tree record.  The mode is the bytes up to
the first space (its length is asserted to be 5 or 6, with no digit check),
the path the bytes up to the next NUL, and the sha the next 20 bytes rendered
through hex(int.from_bytes(...))[2:], which drops leading zeros rather than
padding to 40 digits.  Returns (position after the record, leaf). -/
def tree_parse_one (raw : Bytes) (start : Nat) : Except PyErr (Int × GitTreeLeaf) := do
  let x := pyFindByte raw 32 start
  if ¬ (x - start = 5 ∨ x - start = 6) then .error .assertionError
  else
    let mode := pySlice raw start x
    let y := pyFindByte raw 0 x
    let path := pySlice raw (x + 1) y
    let sha := natToHex (bytesToNatBE (pySlice raw (y + 1) (y + 21)))
    return (y + 21, ⟨mode, path, sha⟩)

/-- tree_parse(raw): pos = 0; while pos < len(raw): pos, data =
tree_parse(raw, pos).  The loop body calls tree_parse itself with two
arguments instead of tree_parse_one, and tree_parse takes one positional
argument, so the first iteration raises TypeError; only the empty payload
(which skips the loop) returns, with the empty list. -/
def tree_parse (raw : Bytes) : Except PyErr (List GitTreeLeaf) :=
  if 0 < raw.length then
    .error (.typeError "tree_parse takes 1 positional argument but 2 were given")
  else .ok []

/-- The bytes the loop body of tree_serialize appends for one entry:
mode SP path NUL then the 20 big-endian bytes of int(sha, 16) (ValueError
when the sha is not hex, OverflowError when it needs more than 20 bytes). -/
def leaf_record (i : GitTreeLeaf) : Except PyErr Bytes := do
  let sha ← pyIntHex i.sha
  if sha < 256 ^ 20 then
    return i.mode ++ [32] ++ i.path ++ [0] ++ natToBytesBE 20 sha
  else .error .overflowError

/-- The deserialized tree object (class GitTree): its entry list. -/
structure GitTree where
  items : List GitTreeLeaf
  deriving DecidableEq, Repr

/-- tree_serialize(obj): concatenates the record of every entry of obj.items
in the order the list holds them; the source performs no sorting. -/
def tree_serialize (obj : GitTree) : Except PyErr Bytes :=
  obj.items.foldlM (fun ret i => do
    let r ← leaf_record i
    return ret ++ r) []

/-- object_read(repo, sha).  The source computes
path = repo_file("objects", sha[0:2], sha[2:0]): the repo argument is
missing, so the string "objects" takes its place and sha[2:0] is the empty
slice; repo_path then evaluates "objects".gitdir and raises AttributeError
before any file is touched.  The rest of the source (open, zlib.decompress,
envelope parsing, constructor dispatch) is unreachable on every input and is
not modelled beyond this marker. -/
def object_read (fs : FS) (repo : GitRepository) (sha : String) :
    Except PyErr GitObject := do
  let _ ← repo_file fs (.vstr "objects") [pyStrSlice sha 0 2, pyStrSlice sha 2 0] false
  let _ := repo
  .error (.exception "object_read: unreachable")

/-- object_hash(fd, fmt, repo): fd.read() is the data argument here.  It
builds the object of the given kind (the constructors run deserialize: blob
keeps the bytes, commit and tag parse KVLM — and the class GitTag is nowhere
defined in the source, so that branch raises NameError — tree runs
tree_parse) and ends with return object_write(obj, repo), which passes the
repository where object_write expects the actually_write flag (truthy when a
repository is given). -/
def object_hash (data : Bytes) (fmt : Bytes) (repo : Option GitRepository) :
    Except PyErr Unit := do
  let obj : GitObject ←
    if fmt = strBytes "commit" then do
      let kv ← kvlm_parse data 0 none
      pure { fmt := strBytes "commit", data := .commit kv }
    else if fmt = strBytes "tree" then do
      let items ← tree_parse data
      pure { fmt := strBytes "tree", data := .tree items }
    else if fmt = strBytes "tag" then
      .error (.nameError "name GitTag is not defined")
    else if fmt = strBytes "blob" then
      pure { fmt := strBytes "blob", data := .blob data }
    else .error (.exception "Unknown type")
  object_write obj repo.isSome

/-- ref_resolve(repo, ref).  It opens repo_file(repo, ref) (TypeError when
that is None, FileNotFoundError when the file is absent), drops the final
newline with read()[:-1], and then evaluates data.startwith("ref: "):
str has no method startwith (startswith was meant), so every resolution that
reaches this point raises AttributeError; in particular the recursive call
for symbolic references is unreachable, and the source tracks no visited
set. -/
def ref_resolve (fs : FS) (repo : GitRepository) (ref : String) :
    Except PyErr String := do
  let (pathOpt, _) ← repo_file fs (.vrepo repo) [ref] false
  match pathOpt with
  | none => .error (.typeError "open argument must not be None")
  | some p =>
    match fs.readFile p with
    | none => .error .fileNotFoundError
    | some content =>
      let _data := pyStrSlice (bytesToStr content) 0 (-1)
      .error (.attributeError "str object has no attribute startwith")

/-- log_graphviz(repo, sha, seen): return if sha is in seen, otherwise add
it, read the commit (assert its fmt), stop at a root commit, and for every
parent print the edge (sha, parent) and recurse.  The result collects the
printed edges together with the final seen set; the fuel bounds the
recursion depth as the Python recursion limit would. -/
def log_graphviz (fs : FS) (repo : GitRepository) :
    Nat → String → List String → Except PyErr (List (String × String) × List String)
  | 0, _, _ => .error .divergence
  | fuel + 1, sha, seen =>
    if seen.contains sha then .ok ([], seen)
    else
      let seen := sha :: seen
      match object_read fs repo sha with
      | .error e => .error e
      | .ok commit =>
        if commit.fmt ≠ strBytes "commit" then .error .assertionError
        else
          match commit.data with
          | .commit none => .error (.attributeError "NoneType has no attribute keys")
          | .commit (some kvlm) =>
            (match dictGet kvlm (strBytes "parent") with
            | none => .ok ([], seen)
            | some pv =>
              let parents := match pv with | .l vs => vs | .s v => [v]
              parents.foldlM
                (fun acc p => do
                  let pStr := bytesToStr p
                  let withEdge := acc.1 ++ [(sha, pStr)]
                  let (es, seen2) ← log_graphviz fs repo fuel pStr acc.2
                  return (withEdge ++ es, seen2))
                (([] : List (String × String)), seen))
          | _ => .error (.attributeError "object has no attribute kvlm")

/-- tree_checkout(repo, tree, path): for every entry read its object, then
make a directory and recurse for a tree, or write the blob bytes for a blob
(any other kind is silently skipped by the source).  The filesystem is
threaded through; the fuel bounds the recursion depth. -/
def tree_checkout (repo : GitRepository) :
    Nat → FS → List GitTreeLeaf → String → Except PyErr FS
  | _, fs, [], _ => .ok fs
  | 0, _, _ :: _, _ => .error .divergence
  | fuel + 1, fs, item :: rest, path => do
    let obj ← object_read fs repo item.sha
    let dest := path ++ "/" ++ bytesToStr item.path
    let fs ←
      (if obj.fmt = strBytes "tree" then
        match obj.data with
        | .tree sub => tree_checkout repo fuel { fs with dirs := dest :: fs.dirs } sub dest
        | _ => .error (.attributeError "object has no attribute items")
      else if obj.fmt = strBytes "blob" then
        match obj.data with
        | .blob b => pure { fs with files := (dest, b) :: fs.files }
        | _ => .error (.attributeError "object has no attribute blobdata")
      else pure fs : Except PyErr FS)
    tree_checkout repo fuel fs rest path

/-- cmd_checkout(args): read the named object (through the identity
object_find), replace a commit by its tree, then verify that the destination
path is an empty directory (raising on a non-directory or a non-empty
directory, creating it when absent), and materialize with tree_checkout.
The source reads the object before it validates the destination, and
object_read raises on every input, so the validation is unreachable. -/
def cmd_checkout (fs : FS) (repo : GitRepository) (commitArg pathArg : String) :
    Except PyErr FS := do
  let obj ← object_read fs repo (object_find repo commitArg none true)
  let obj ←
    (if obj.fmt = strBytes "commit" then
      match obj.data with
      | .commit (some kvlm) =>
        match dictGet kvlm (strBytes "tree") with
        | some (.s v) => object_read fs repo (bytesToStr v)
        | some (.l _) => .error (.attributeError "list has no attribute decode")
        | none => .error .keyError
      | .commit none => .error (.typeError "NoneType is not subscriptable")
      | _ => .error (.attributeError "object has no attribute kvlm")
    else pure obj : Except PyErr GitObject)
  let fs ←
    (if fs.pathExists pathArg then
      if ¬ fs.isdir pathArg then .error (.exception ("Not a directory: " ++ pathArg))
      else if fs.childNames pathArg ≠ [] then .error (.exception ("Not empty " ++ pathArg))
      else pure fs
    else pure { fs with dirs := pathArg :: fs.dirs } : Except PyErr FS)
  match obj.data with
  | .tree items => tree_checkout repo (items.length + 1) fs items pathArg
  | _ => .error (.attributeError "object has no attribute items")

/-! ## Spec-side comparison definition for the tree encoder -/

/-- Byte-wise (lexicographic) order on byte strings. -/
def bytesLt : Bytes → Bytes → Bool
  | [], [] => false
  | [], _ :: _ => true
  | _ :: _, [] => false
  | a :: as, b :: bs => if a < b then true else if b < a then false else bytesLt as bs

/-- The sort key the spec describes for a tree entry: the bytes of its
encoded mode + name record. -/
def leafSortKey (i : GitTreeLeaf) : Bytes := i.mode ++ i.path

def insertLeaf (i : GitTreeLeaf) : List GitTreeLeaf → List GitTreeLeaf
  | [] => [i]
  | j :: js => if bytesLt (leafSortKey i) (leafSortKey j) then i :: j :: js
    else j :: insertLeaf i js

def sortLeaves : List GitTreeLeaf → List GitTreeLeaf
  | [] => []
  | i :: is => insertLeaf i (sortLeaves is)

/-- Modelled from the spec (not from the source, which performs no sorting):
the serializer the spec describes, emitting the entries in the byte-wise
sort order of their encoded mode + name record.  It exists only to be
compared against tree_serialize. -/
def tree_serialize_sorted (obj : GitTree) : Except PyErr Bytes :=
  (sortLeaves obj.items).foldlM (fun ret i => do
    let r ← leaf_record i
    return ret ++ r) []

/-! ## Concrete fixtures -/

/-- A well-formed repository value. -/
def exRepo : GitRepository := ⟨"/repo", "/repo/.git"⟩

/-- A reference store holding the two-member cycle A -> B -> A. -/
def fsCycle : FS :=
  ⟨["/repo/.git"],
   [("/repo/.git/A", strBytes "ref: B\n"), ("/repo/.git/B", strBytes "ref: A\n")]⟩

/-- A store holding a diamond commit graph: D with parents B and C, each with
the single parent A, A a root.  The file contents stand for the compressed
objects; object_read raises before ever opening one, so they are never
inspected. -/
def fsDiamond : FS :=
  ⟨["/repo/.git", "/repo/.git/objects", "/repo/.git/objects/dd",
    "/repo/.git/objects/bb", "/repo/.git/objects/cc", "/repo/.git/objects/aa"],
   [("/repo/.git/objects/dd/d1", strBytes "commit D"),
    ("/repo/.git/objects/bb/b1", strBytes "commit B"),
    ("/repo/.git/objects/cc/c1", strBytes "commit C"),
    ("/repo/.git/objects/aa/a1", strBytes "commit A")]⟩

/-- A filesystem whose destination directory /dest already holds a file. -/
def fsNonEmptyDest : FS := ⟨["/dest"], [("/dest/junk", strBytes "old content")]⟩

/-- The intended KVLM bytes of a small commit: two header lines, a blank
line, then the message. -/
def exCommitBytes : Bytes := strBytes "tree 29ff\nparent 2069\n\nmsg"

/-- The KVLM value whose faithful serialization would be exCommitBytes. -/
def exKvlm : Kvlm :=
  [(strBytes "tree", .s (strBytes "29ff")),
   (strBytes "parent", .s (strBytes "2069")),
   ([], .s (strBytes "msg"))]

/-- Tree entry named b (sorts after exLeafSecond). -/
def exLeafFirst : GitTreeLeaf :=
  ⟨strBytes "100644", strBytes "b", String.mk (List.replicate 40 'a')⟩

/-- Tree entry named a (sorts before exLeafFirst). -/
def exLeafSecond : GitTreeLeaf :=
  ⟨strBytes "100644", strBytes "a", String.mk (List.replicate 40 'b')⟩

/-- The record tree_serialize appends for exLeafFirst. -/
def exRecFirst : Bytes := strBytes "100644 b" ++ [0] ++ List.replicate 20 170

/-- The record tree_serialize appends for exLeafSecond. -/
def exRecSecond : Bytes := strBytes "100644 a" ++ [0] ++ List.replicate 20 187

/-! ## The claims -/

/-- Claim C1.  The claim says object_hash / object_write return the
40-lowercase-hex SHA-1 of the envelope; in fact storing the blob
b"hello\n" raises AttributeError, because object_write evaluates
object.seralize() on the Python builtin object class, and (were that
repaired) would go on to call the nonexistent hashlib.sha and would return
None, having no return statement.  The code therefore never returns any
address. -/
theorem object_hash_hello_blob_raises_attribute_error :
    object_hash (strBytes "hello\n") (strBytes "blob") none =
      .error (.attributeError "type object object has no attribute seralize") := by
  rfl

/-- Claim C2.  The claim says encode(decode(b)) = b for every valid commit
byte string, with the message emitted exactly once after all other keys.  In
fact decode (kvlm_parse) raises AttributeError on every call (the
collections module has no attribute OrderDict), and encode (kvlm_serialze)
appends the blank line and the message inside the per-key loop, so a
two-header commit comes back with the message embedded twice, not equal to
the intended bytes. -/
theorem kvlm_roundtrip_fails_on_valid_commit :
    kvlm_parse exCommitBytes 0 none =
      .error (.attributeError "module collections has no attribute OrderDict") ∧
    kvlm_serialze exKvlm = .ok (strBytes "tree 29ff\n\nmsgparent 2069\n\nmsg") ∧
    strBytes "tree 29ff\n\nmsgparent 2069\n\nmsg" ≠ exCommitBytes := by
  refine ⟨rfl, rfl, ?_⟩
  decide

/-- Claim C3.  The claim says get (object_read) reads the sharded path
store-root/a[0:2]/a[2:], failing with ObjectNotFound or CorruptObject.  In
fact object_read computes repo_file("objects", sha[0:2], sha[2:0]) — the
repo argument is missing and the trailing slice is empty — so for every
filesystem, repository and address it raises AttributeError (the string
"objects" has no gitdir attribute) before any path is consulted. -/
theorem object_read_always_raises_attribute_error :
    ∀ (fs : FS) (repo : GitRepository) (sha : String),
      object_read fs repo sha =
        .error (.attributeError "str object has no attribute gitdir") := by
  intro fs repo sha
  rfl

/-- Claim C4.  The claim says put is idempotent, yielding the same address
both times.  In fact put never yields an address: every call of
object_write raises AttributeError at object.seralize() (and the function
has no return statement besides), so a second call cannot return the same
address as the first — neither returns one.  Evaluated here through
object_hash with a repository supplied, the write-enabled path. -/
theorem object_write_yields_no_address :
    object_hash (strBytes "abc") (strBytes "blob") (some exRepo) =
      .error (.attributeError "type object object has no attribute seralize") := by
  rfl

/-- Claim C5.  The claim says resolving the cycle A -> B -> A terminates
with a ReferenceCycle error.  In fact ref_resolve reads A, then evaluates
data.startwith("ref: ") — str has no method startwith — and raises
AttributeError before the first recursive step; the source has no visited
set and no ReferenceCycle error at all (with the typo repaired it would
recurse unboundedly on this store). -/
theorem ref_resolve_cycle_raises_attribute_error :
    ref_resolve fsCycle exRepo "A" =
      .error (.attributeError "str object has no attribute startwith") := by
  rfl

/-- Claim C6.  The claim says the diamond D -> (B, C) -> A produces exactly
the four edges (D,B), (D,C), (B,A), (C,A) with A visited once.  In fact
log_graphviz emits no edge on any store: its first object_read call raises
AttributeError (the repo argument is missing inside object_read), so the
traversal of the diamond fails before visiting anything. -/
theorem log_graphviz_diamond_raises_before_any_edge :
    log_graphviz fsDiamond exRepo 16 "ddd1" [] =
      .error (.attributeError "str object has no attribute gitdir") := by
  rfl

/-- Claim C7 counterexample.  The tree encoder does not sort: supplying the
entries (100644, b) then (100644, a) — out of byte-wise order — serializes
them in that order, differing from the sorted serialization the claim
describes. -/
theorem tree_serialize_not_sorted_counterexample :
    tree_serialize ⟨[exLeafFirst, exLeafSecond]⟩ ≠
      tree_serialize_sorted ⟨[exLeafFirst, exLeafSecond]⟩ := by
  decide

/-- Claim C7 as amended.  tree_serialize emits the entries in the order they
are supplied, performing no sort: the two-entry tree serializes to the
concatenation of the per-entry records in supply order, and swapping the
supply order of two entries with distinct same-length records changes the
serialized bytes. -/
theorem tree_serialize_emits_in_supply_order (a b : GitTreeLeaf) (ra rb : Bytes)
    (ha : leaf_record a = .ok ra) (hb : leaf_record b = .ok rb)
    (hlen : ra.length = rb.length) (hne : ra ≠ rb) :
    tree_serialize ⟨[a, b]⟩ = .ok (ra ++ rb) ∧
    tree_serialize ⟨[b, a]⟩ = .ok (rb ++ ra) ∧
    tree_serialize ⟨[a, b]⟩ ≠ tree_serialize ⟨[b, a]⟩ := by
  have h1 : tree_serialize ⟨[a, b]⟩ = .ok (ra ++ rb) := by
    simp [tree_serialize, List.foldlM, ha, hb, Bind.bind, Except.bind, pure, Except.pure]
  have h2 : tree_serialize ⟨[b, a]⟩ = .ok (rb ++ ra) := by
    simp [tree_serialize, List.foldlM, ha, hb, Bind.bind, Except.bind, pure, Except.pure]
  refine ⟨h1, h2, ?_⟩
  rw [h1, h2]
  intro h
  have h' : ra ++ rb = rb ++ ra := by
    injection h
  exact hne (List.append_inj h' hlen).1

/-- Claim C7 witness: the amended statement at the two concrete entries
exLeafFirst and exLeafSecond. -/
theorem tree_serialize_supply_order_witness :
    tree_serialize ⟨[exLeafFirst, exLeafSecond]⟩ = .ok (exRecFirst ++ exRecSecond) ∧
    tree_serialize ⟨[exLeafSecond, exLeafFirst]⟩ = .ok (exRecSecond ++ exRecFirst) ∧
    tree_serialize ⟨[exLeafFirst, exLeafSecond]⟩ ≠
      tree_serialize ⟨[exLeafSecond, exLeafFirst]⟩ :=
  tree_serialize_emits_in_supply_order exLeafFirst exLeafSecond exRecFirst exRecSecond
    (by decide) (by decide) (by decide) (by decide)

/-- Claim C8.  The claim says decode (tree_parse) parses record after record
until the payload is exhausted.  In fact tree_parse never calls
tree_parse_one: its loop body calls tree_parse itself with two arguments,
and tree_parse takes one, so every non-empty payload — here a single
well-formed record — raises TypeError; only the empty payload returns (the
empty list). -/
theorem tree_parse_raises_type_error_on_wellformed_record :
    tree_parse (strBytes "100644 a" ++ [0] ++ List.replicate 20 170) =
      .error (.typeError "tree_parse takes 1 positional argument but 2 were given") ∧
    tree_parse [] = .ok ([] : List GitTreeLeaf) := by
  exact ⟨rfl, rfl⟩

/-- Claim C9.  The claim says checkout into a non-empty destination fails
with NotEmptyDestination before materializing anything.  In fact
cmd_checkout reads the object before it validates the destination, and
object_read raises AttributeError on every input, so the run on a non-empty
/dest fails with AttributeError — the emptiness check (and its
Not empty error) is never reached.  Nothing is written (the error carries no
filesystem), but the error kind the claim names never occurs. -/
theorem cmd_checkout_nonempty_dest_raises_attribute_error :
    cmd_checkout fsNonEmptyDest exRepo "ce013625030ba8dba906f756967f9e9ca394464a"
      "/dest" = .error (.attributeError "str object has no attribute gitdir") := by
  rfl

/-- Claim C10.  object_find returns its name argument unchanged for every
repository, name, format and follow flag: name resolution is the identity,
so the commands built on it treat their object argument as a literal
address. -/
theorem object_find_is_identity :
    ∀ (repo : GitRepository) (name : String) (fmt : Option Bytes) (follow : Bool),
      object_find repo name fmt follow = name := by
  intro repo name fmt follow
  rfl

end Mockgit
